import Mathlib

/-!
Verification of the segmentation-analysis engine
(snapshot builder, trailing-window aggregation, movement/summary analytics,
cohort analytics and churn-risk scoring) against its specification.

The Python source is shallowly embedded: DataFrames become lists of rows,
numeric cells become exact rationals, fallible operations return
`Except PyErr`, and pandas/Python primitives (`int()` parsing, column
lookup, `iloc[0]`, filtering, `sort_values`) are modelled by small
executable Lean functions.
-/

deriving instance DecidableEq for Except

/-- Python-level runtime errors that the embedded functions can surface.
`keyError` models `KeyError` (missing DataFrame column), `indexError`
models `IndexError` (e.g. `.iloc[0]` on an empty frame), `valueError`
models `ValueError` (e.g. `int()` on a non-numeric string, and the
validator's explicit `raise ValueError`). -/
inductive PyErr where
  | keyError (col : String)
  | indexError
  | valueError (msg : String)
  deriving DecidableEq, Repr

/-- Python `int(s)` on the character list of a Python string: strips surrounding
whitespace, allows one optional sign, then requires a nonempty run of
decimal digits.  (Python's underscore digit separators are not modelled;
no segment code in scope uses them.) -/
def pyIntChars (cs : List Char) : Except PyErr Int :=
  let t := ((cs.dropWhile Char.isWhitespace).reverse.dropWhile Char.isWhitespace).reverse
  match t with
  | [] => .error (.valueError (String.mk cs))
  | c :: rest =>
    let sg : Int := if c = '-' then -1 else 1
    let ds : List Char := if c = '-' ∨ c = '+' then rest else c :: rest
    if ds ≠ [] ∧ ds.all Char.isDigit then
      .ok (sg * ((ds.foldl (fun a d => a * 10 + (d.toNat - 48)) 0 : Nat) : Int))
    else .error (.valueError (String.mk cs))

/-- The ordinal of a segment code, `int(code[3:])`, parsed from its fourth
character onward (source: `int(curr_seg[3:])` in `cohort.py` / `risk.py`). -/
def seg_ordinal (code : String) : Except PyErr Int :=
  pyIntChars (code.data.drop 3)

/-- Insert `x` into `l`, before the first element `y` with `le x y`. -/
def insertLe (le : α → α → Bool) (x : α) : List α → List α
  | [] => [x]
  | y :: ys => if le x y then x :: y :: ys else y :: insertLe le x ys

/-- Insertion sort with comparator `le`; models Python `sorted` and is one
admissible implementation of a comparison sort. -/
def isort (le : α → α → Bool) : List α → List α
  | [] => []
  | x :: xs => insertLe le x (isort le xs)

theorem insertLe_perm (le : α → α → Bool) (x : α) (l : List α) :
    (insertLe le x l).Perm (x :: l) := by
  induction l with
  | nil => simp [insertLe]
  | cons y ys ih =>
    simp only [insertLe]
    split
    · exact List.Perm.refl _
    · exact (List.Perm.cons y ih).trans (List.Perm.swap x y ys)

theorem isort_perm (le : α → α → Bool) (l : List α) : (isort le l).Perm l := by
  induction l with
  | nil => simp [isort]
  | cons x xs ih =>
    exact (insertLe_perm le x (isort le xs)).trans (List.Perm.cons x ih)

theorem mem_insertLe (le : α → α → Bool) (x : α) (l : List α) (a : α) :
    a ∈ insertLe le x l ↔ a = x ∨ a ∈ l := by
  have h := (insertLe_perm le x l).mem_iff (a := a)
  simpa using h

theorem pairwise_insertLe (le : α → α → Bool)
    (htot : ∀ a b, le a b = true ∨ le b a = true)
    (htr : ∀ a b c, le a b = true → le b c = true → le a c = true)
    (x : α) (l : List α) (hl : l.Pairwise (fun a b => le a b = true)) :
    (insertLe le x l).Pairwise (fun a b => le a b = true) := by
  induction l with
  | nil => simp [insertLe]
  | cons y ys ih =>
    rw [List.pairwise_cons] at hl
    obtain ⟨hy, hys⟩ := hl
    simp only [insertLe]
    split
    · rename_i hxy
      refine List.Pairwise.cons ?_ (List.Pairwise.cons hy hys)
      intro b hb
      rcases List.mem_cons.1 hb with rfl | hb
      · exact hxy
      · exact htr x y b hxy (hy b hb)
    · rename_i hxy
      have hyx : le y x = true := by
        rcases htot x y with h | h
        · exact absurd h hxy
        · exact h
      refine List.Pairwise.cons ?_ (ih hys)
      intro b hb
      rcases (mem_insertLe le x ys b).1 hb with rfl | hb
      · exact hyx
      · exact hy b hb

theorem pairwise_isort (le : α → α → Bool)
    (htot : ∀ a b, le a b = true ∨ le b a = true)
    (htr : ∀ a b c, le a b = true → le b c = true → le a c = true)
    (l : List α) : (isort le l).Pairwise (fun a b => le a b = true) := by
  induction l with
  | nil => simp [isort]
  | cons x xs ih => exact pairwise_insertLe le htot htr x (isort le xs) ih

/-- Lexicographic comparison of character lists by code point, matching
Python's string ordering. -/
def charListLe : List Char → List Char → Bool
  | [], _ => true
  | _ :: _, [] => false
  | a :: as, b :: bs =>
    if a.val < b.val then true else if b.val < a.val then false else charListLe as bs

/-- Python `a <= b` on strings (lexicographic by code point). -/
def strLe (a b : String) : Bool := charListLe a.data b.data

/-- Python `sorted(set(...))` over strings: deduplicate, then sort ascending
(lexicographic, as Python sorts strings). -/
def sortedDedup (l : List String) : List String :=
  isort strLe l.dedup

theorem sortedDedup_nodup (l : List String) : (sortedDedup l).Nodup :=
  ((isort_perm _ l.dedup).nodup_iff).2 l.nodup_dedup

theorem mem_sortedDedup (l : List String) (a : String) :
    a ∈ sortedDedup l ↔ a ∈ l := by
  unfold sortedDedup
  rw [(isort_perm _ l.dedup).mem_iff, List.mem_dedup]

/-- The body of the `while m <= 0: m += 12; y -= 1` loop in
`get_ttm_months`, with an explicit fuel bound; `1 - m` iterations always
suffice since each step increases `m` by 12. -/
def normMonthFuel : Nat → Int → Int → Int × Int
  | 0, m, y => (m, y)
  | f + 1, m, y => if m ≤ 0 then normMonthFuel f (m + 12) (y - 1) else (m, y)

/-- Embedding of `get_ttm_months` (src/utils/dates.py): walk backward
month-by-month `num_months` times from `month` (YYYYMM), decrementing the
year whenever the month number underflows below 1, and return the sorted
list of covered months. -/
def get_ttm_months (month : Nat) (num_months : Nat) : List Int :=
  let year : Int := (month / 100 : Nat)
  let month_num : Int := (month % 100 : Nat)
  let months := (List.range num_months).map (fun i =>
    let start : Int := month_num - i
    let my := normMonthFuel (1 - start).toNat start year
    my.2 * 100 + my.1)
  isort (fun a b => decide (a ≤ b)) months

/-! ## Snapshot builder (src/data/processor.py) -/

/-- Column names from `SEGMENT_COLS` in src/config/settings.py. -/
def SEGMENT_COLS_entity : String := "glbl_enti_nbr"

/-- The `SEGMENT_COLS['month']` entry from src/config/settings.py. -/
def SEGMENT_COLS_month : String := "segmentation_mnth"

/-- The `SEGMENT_COLS['segment']` entry from src/config/settings.py. -/
def SEGMENT_COLS_segment : String := "dmnt_seg_cd"

/-- A raw input table (pandas DataFrame of an assignment file): a list of
column names and one cell-valuation per row.  Cell values are strings
(entity ids and segment codes are strings; the month cell is only read,
never computed with, so its textual form is adequate here). -/
structure Frame where
  cols : List String
  data : List (String → String)

/-- Column access `df[col]`: the column as a list of cells, or a `KeyError` naming the
missing column. -/
def getCol (f : Frame) (c : String) : Except PyErr (List String) :=
  if c ∈ f.cols then .ok (f.data.map (fun row => row c)) else .error (.keyError c)

/-- First-row access `series.iloc[0]`: first element, or an `IndexError` on an empty frame. -/
def iloc0 (l : List String) : Except PyErr String :=
  match l with
  | [] => .error .indexError
  | v :: _ => .ok v

/-- One row of the joined snapshot before metric enrichment: entity id,
nullable base segment, nullable current segment, and the classified
status. -/
structure BuildRow where
  entity : String
  base_segment : Option String
  current_segment : Option String
  status : String
  deriving DecidableEq, Repr

/-- Embedding of `base.merge(curr, on='entity', how='outer')` for single-key frames:
every base row is matched with all current rows sharing its entity (null
current segment if none), then current-only entities are appended with a
null base segment. -/
def outerJoin (base curr : List (String × String)) : List BuildRow :=
  (base.flatMap (fun be =>
    let ms := curr.filter (fun ce => ce.1 == be.1)
    if ms.isEmpty then [⟨be.1, some be.2, none, ""⟩]
    else ms.map (fun ce => ⟨be.1, some be.2, some ce.2, ""⟩)))
  ++ ((curr.filter (fun ce => base.all (fun be => ¬ be.1 == ce.1))).map
      (fun ce => ⟨ce.1, none, some ce.2, ""⟩))

/-- Embedding of `classify_status_vectorized`: the four pairwise-disjoint
masks written to the status series, in source order; rows matching no mask
keep the initial empty string. -/
def classify_status (b c : Option String) : String :=
  let base_na := b.isNone
  let curr_na := c.isNone
  let same_seg := match b, c with
    | some x, some y => x == y
    | _, _ => false
  if base_na && !curr_na then "New (System)"
  else if !base_na && curr_na then "Lost (System)"
  else if same_seg && !base_na && !curr_na then "Retained"
  else if !same_seg && !base_na && !curr_na then "Moved Internal"
  else ""

/-- Embedding of `create_snapshot` up to and including status
classification: reads the month cell of the first row of each assignment
table, selects the entity and segment columns, outer-joins base and
current on entity, and classifies each row's status.  The caching and the
subsequent TTM-metric left-joins are omitted: they do not alter the
entity/segment/status columns this development reasons about. -/
def create_snapshot (base_seg curr_seg : Frame) : Except PyErr (List BuildRow) := do
  let bmonths ← getCol base_seg SEGMENT_COLS_month
  let _base_month ← iloc0 bmonths
  let cmonths ← getCol curr_seg SEGMENT_COLS_month
  let _current_month ← iloc0 cmonths
  let bEnt ← getCol base_seg SEGMENT_COLS_entity
  let bSeg ← getCol base_seg SEGMENT_COLS_segment
  let cEnt ← getCol curr_seg SEGMENT_COLS_entity
  let cSeg ← getCol curr_seg SEGMENT_COLS_segment
  let snapshot := outerJoin (bEnt.zip bSeg) (cEnt.zip cSeg)
  .ok (snapshot.map (fun r => { r with status := classify_status r.base_segment r.current_segment }))

/-! ## Analytics data model (the Snapshot consumed by src/analysis/) -/

/-- One enriched Snapshot row: entity id, nullable base/current segment,
status string, and the `base_<metric>` / `current_<metric>` cell values
(exact rationals standing for the IEEE doubles), read through the metric's
unprefixed name. -/
structure Row where
  entity : String
  base_segment : Option String
  current_segment : Option String
  status : String
  baseVal : String → Rat
  currVal : String → Rat

/-- A Snapshot: the list of unprefixed metric column names (each present
as both `base_<m>` and `current_<m>`) and the rows. -/
structure Snapshot where
  metricCols : List String
  rows : List Row

/-- Value of the cell `f'{period}_{metric}'` of a row (src callers only
ever pass period `'base'` or `'current'`). -/
def metricVal (period metric : String) (r : Row) : Rat :=
  if period = "base" then r.baseVal metric else r.currVal metric

/-- Embedding of `calculate_metric` (src/analysis/metrics.py): `0` for an
empty subset; the row count for metric `'count'`; otherwise the sum of the
`<period>_<metric>` column if present, else `0`. -/
def calculate_metric (s : Snapshot) (df : List Row) (period metric : String) : Rat :=
  if df.length = 0 then 0
  else if metric = "count" then (df.length : Rat)
  else if metric ∈ s.metricCols then (df.map (metricVal period metric)).sum
  else 0

/-- The unprefixed names of the revenue columns: metric columns whose name
contains `_rev_wf` (source: `col.startswith('base_') and '_rev_wf' in
col`, applied to the prefixed snapshot columns). -/
def revCols (s : Snapshot) : List String :=
  s.metricCols.filter (fun c => decide ("_rev_wf".data <:+: c.data))

/-- Summed base-period revenue of one row
(`sum(entity[col] for col in base_rev_cols)`). -/
def rowBaseRev (s : Snapshot) (r : Row) : Rat := ((revCols s).map r.baseVal).sum

/-- Summed current-period revenue of one row. -/
def rowCurrRev (s : Snapshot) (r : Row) : Rat := ((revCols s).map r.currVal).sum

/-- A Python `for` loop building a list, where each iteration can raise. -/
def mapE (f : α → Except PyErr β) : List α → Except PyErr (List β)
  | [] => .ok []
  | x :: xs => do
    let y ← f x
    let ys ← mapE f xs
    .ok (y :: ys)

/-- A Python `for` loop threading an accumulator, where each iteration can
raise. -/
def foldE (f : σ → α → Except PyErr σ) (init : σ) : List α → Except PyErr σ
  | [] => .ok init
  | x :: xs => do
    let s ← f init x
    foldE f s xs

theorem mapE_ok_mem {f : α → Except PyErr β} {xs : List α} {ys : List β}
    (h : mapE f xs = .ok ys) : ∀ y ∈ ys, ∃ x ∈ xs, f x = .ok y := by
  induction xs generalizing ys with
  | nil =>
    simp only [mapE] at h
    cases h
    intro y hy
    cases hy
  | cons x xs ih =>
    simp only [mapE, bind, Except.bind] at h
    cases hfx : f x with
    | error e => rw [hfx] at h; cases h
    | ok y0 =>
      rw [hfx] at h
      cases hrest : mapE f xs with
      | error e => rw [hrest] at h; cases h
      | ok ys0 =>
        rw [hrest] at h
        cases h
        intro y hy
        rcases List.mem_cons.1 hy with rfl | hy
        · exact ⟨x, List.mem_cons_self x xs, hfx⟩
        · rcases ih hrest y hy with ⟨x', hx', hfx'⟩
          exact ⟨x', List.mem_cons_of_mem x hx', hfx'⟩

/-! ## Summary view (src/analysis/summary.py) -/

/-- One row of the summary view: the numeric columns, per segment. -/
structure SummaryRow where
  segment : String
  base : Rat
  current : Rat
  retained : Rat
  newSystem : Rat
  addedOther : Rat
  lostOther : Rat
  lostSystem : Rat
  netChange : Rat
  deriving DecidableEq, Repr

/-- The per-segment row computed by the loop body of
`generate_summary_view`: each cell applies `calculate_metric` to the
filtered subset written in the source, with the source's period choice. -/
def summaryRowFor (s : Snapshot) (metric seg : String) : SummaryRow :=
  let base := calculate_metric s (s.rows.filter (fun r => r.base_segment == some seg)) "base" metric
  let current := calculate_metric s (s.rows.filter (fun r => r.current_segment == some seg)) "current" metric
  { segment := seg
    base := base
    current := current
    retained := calculate_metric s (s.rows.filter (fun r =>
      r.base_segment == some seg && r.current_segment == some seg)) "current" metric
    newSystem := calculate_metric s (s.rows.filter (fun r =>
      r.current_segment == some seg && r.base_segment.isNone)) "current" metric
    addedOther := calculate_metric s (s.rows.filter (fun r =>
      r.current_segment == some seg && r.base_segment.isSome && r.base_segment != some seg)) "current" metric
    lostOther := calculate_metric s (s.rows.filter (fun r =>
      r.base_segment == some seg && r.current_segment.isSome && r.current_segment != some seg)) "base" metric
    lostSystem := calculate_metric s (s.rows.filter (fun r =>
      r.base_segment == some seg && r.current_segment.isNone)) "base" metric
    netChange := current - base }

/-- Embedding of `generate_summary_view`: one row per segment in the
sorted union of base and current segments, plus the appended `TOTAL` row
summing every numeric column down the table.  When the segment union is
empty the produced frame has no numeric columns and the function's own
summary `print` raises `KeyError('Base')`. -/
def generate_summary_view (s : Snapshot) (metric : String) :
    Except PyErr (List SummaryRow × SummaryRow) :=
  let all_segments := sortedDedup
    ((s.rows.filterMap (fun r => r.base_segment)) ++ (s.rows.filterMap (fun r => r.current_segment)))
  let rows := all_segments.map (summaryRowFor s metric)
  let totals : SummaryRow :=
    { segment := "TOTAL"
      base := (rows.map (fun r => r.base)).sum
      current := (rows.map (fun r => r.current)).sum
      retained := (rows.map (fun r => r.retained)).sum
      newSystem := (rows.map (fun r => r.newSystem)).sum
      addedOther := (rows.map (fun r => r.addedOther)).sum
      lostOther := (rows.map (fun r => r.lostOther)).sum
      lostSystem := (rows.map (fun r => r.lostSystem)).sum
      netChange := (rows.map (fun r => r.netChange)).sum }
  if all_segments.isEmpty then .error (.keyError "Base") else .ok (rows, totals)

/-! ## Movement matrix (src/analysis/matrix.py) -/

/-- The sorted distinct base segments of a snapshot
(`sorted(snapshot['base_segment'].dropna().unique())`). -/
def mm_base_segments (s : Snapshot) : List String :=
  sortedDedup (s.rows.filterMap (fun r => r.base_segment))

/-- The sorted distinct current segments of a snapshot. -/
def mm_curr_segments (s : Snapshot) : List String :=
  sortedDedup (s.rows.filterMap (fun r => r.current_segment))

/-- Matrix cell `[base_seg, curr_seg]`: metric over entities that moved
from `b` to `c` (period `'current'` per the source). -/
def mm_cell (s : Snapshot) (metric b c : String) : Rat :=
  calculate_metric s (s.rows.filter (fun r =>
    r.base_segment == some b && r.current_segment == some c)) "current" metric

/-- The `Lost` column cell of base row `b`: metric (period `'base'`) over
entities of base segment `b` with a null current segment. -/
def mm_lost (s : Snapshot) (metric b : String) : Rat :=
  calculate_metric s (s.rows.filter (fun r =>
    r.base_segment == some b && r.current_segment.isNone)) "base" metric

/-- The `New` row cell of current column `c`: metric (period `'current'`)
over entities with a null base segment appearing in `c`. -/
def mm_new (s : Snapshot) (metric c : String) : Rat :=
  calculate_metric s (s.rows.filter (fun r =>
    r.current_segment == some c && r.base_segment.isNone)) "current" metric

/-- The `Total Out` cell of base row `b`: `matrix.sum(axis=1)`, i.e. the
sum across the row's current-segment cells plus its `Lost` cell. -/
def mm_total_out (s : Snapshot) (metric b : String) : Rat :=
  ((mm_curr_segments s).map (fun c => mm_cell s metric b c)).sum + mm_lost s metric b

/-- The `Total Out` cell of the `New` row. -/
def mm_total_out_new (s : Snapshot) (metric : String) : Rat :=
  ((mm_curr_segments s).map (fun c => mm_new s metric c)).sum

/-- The `Total In` cell of current column `c`: `matrix.sum(axis=0)`, i.e.
the sum down the column's base-segment cells plus its `New` cell. -/
def mm_total_in (s : Snapshot) (metric c : String) : Rat :=
  ((mm_base_segments s).map (fun b => mm_cell s metric b c)).sum + mm_new s metric c

/-- The `Total In` cell of the `Lost` column. -/
def mm_total_in_lost (s : Snapshot) (metric : String) : Rat :=
  ((mm_base_segments s).map (fun b => mm_lost s metric b)).sum

/-! ## Cohort analytics (src/analysis/cohort.py) -/

/-- One row of the cohort table produced by `identify_segment_cohorts`. -/
structure CohortRow where
  base_seg : String
  cohort_size : Nat
  retained : Nat
  moved_up : Nat
  moved_down : Nat
  churned : Nat
  retention_rate : Rat
  churn_rate : Rat
  deriving DecidableEq, Repr

/-- The loop body of `identify_segment_cohorts` for one base segment:
counts retained/churned rows, parses the base ordinal, classifies each
`Moved Internal` row as moved up (strictly lower current ordinal) or
moved down, and computes the retention and churn percentages (0 for an
empty cohort). -/
def cohortFor (s : Snapshot) (base_seg : String) : Except PyErr CohortRow := do
  let cohort_data := s.rows.filter (fun r => r.base_segment == some base_seg)
  let retained := (cohort_data.filter (fun r => r.status == "Retained")).length
  let churned := (cohort_data.filter (fun r => r.status == "Lost (System)")).length
  let base_num ← seg_ordinal base_seg
  let moved := cohort_data.filter (fun r => r.status == "Moved Internal")
  let ud ← foldE (fun (acc : Nat × Nat) r =>
    match r.current_segment with
    | some cs => do
      let curr_num ← seg_ordinal cs
      .ok (if curr_num < base_num then (acc.1 + 1, acc.2) else (acc.1, acc.2 + 1))
    | none => .ok acc) (0, 0) moved
  let size := cohort_data.length
  .ok { base_seg := base_seg
        cohort_size := size
        retained := retained
        moved_up := ud.1
        moved_down := ud.2
        churned := churned
        retention_rate := if size > 0 then (retained : Rat) / (size : Rat) * 100 else 0
        churn_rate := if size > 0 then (churned : Rat) / (size : Rat) * 100 else 0 }

/-- Embedding of `identify_segment_cohorts`: one cohort row per sorted
distinct base segment.  When there are no cohorts the resulting DataFrame
has no columns and the function's own average-retention `print` raises
`KeyError('Retention Rate')`. -/
def identify_segment_cohorts (s : Snapshot) : Except PyErr (List CohortRow) := do
  let base_segments := sortedDedup (s.rows.filterMap (fun r => r.base_segment))
  let cohorts ← mapE (cohortFor s) base_segments
  if cohorts.isEmpty then .error (.keyError "Retention Rate") else .ok cohorts

/-! ## Risk analytics (src/analysis/risk.py) -/

/-- One row of the entity churn-risk table.  The textual `risk_factors`
column of the source is not modelled; no property in scope reads it. -/
structure RiskRow where
  entity : String
  current_segment : String
  current_revenue : Rat
  risk_score : Nat
  risk_level : String
  deriving DecidableEq, Repr

/-- Factor 1, revenue decline (0..40 points): thresholds on the
percentage change of summed revenue, only when base revenue is positive. -/
def riskFactor1 (base_rev curr_rev : Rat) : Nat :=
  if base_rev > 0 then
    let rev_change_pct := (curr_rev - base_rev) / base_rev * 100
    if rev_change_pct < -20 then 40
    else if rev_change_pct < -10 then 25
    else if rev_change_pct < 0 then 10
    else 0
  else 0

/-- Factor 2, low absolute revenue (0..20 points). -/
def riskFactor2 (curr_rev : Rat) : Nat :=
  if curr_rev < 5000 then 20 else if curr_rev < 10000 then 10 else 0

/-- Factor 3, segment tier (0..20 points), from the current segment's
parsed ordinal. -/
def riskFactor3 (seg_num : Int) : Nat :=
  if seg_num ≥ 16 then 20 else if seg_num ≥ 11 then 10 else 0

/-- Risk level thresholds shared by both risk tables:
`High` at 60 and above, `Medium` at 30 and above, else `Low`. -/
def riskLevel (score : Nat) : String :=
  if score ≥ 60 then "High" else if score ≥ 30 then "Medium" else "Low"

/-- The loop body of `calculate_churn_risk_score` for one entity: the four
additive factors, the total score, and the thresholded risk level. -/
def scoreEntity (s : Snapshot) (r : Row) : Except PyErr RiskRow := do
  let base_rev := rowBaseRev s r
  let curr_rev := rowCurrRev s r
  let f1 := riskFactor1 base_rev curr_rev
  let f2 := riskFactor2 curr_rev
  let f3 ← match r.current_segment with
    | some cs => do
      let n ← seg_ordinal cs
      .ok (riskFactor3 n)
    | none => .ok 0
  let f4 ← if r.status == "Moved Internal" then
      match r.base_segment, r.current_segment with
      | some bs, some cs => do
        let base_num ← seg_ordinal bs
        let curr_num ← seg_ordinal cs
        .ok (if curr_num > base_num then 20 else 0)
      | _, _ => .ok 0
    else .ok 0
  let score := f1 + f2 + f3 + f4
  .ok { entity := r.entity
        current_segment := r.current_segment.getD ""
        current_revenue := curr_rev
        risk_score := score
        risk_level := riskLevel score }

/-- The unsorted risk rows: the scoring loop over every entity with a
non-null current segment, in snapshot order. -/
def churn_risk_rows (s : Snapshot) : Except PyErr (List RiskRow) :=
  mapE (scoreEntity s) (s.rows.filter (fun r => r.current_segment.isSome))

/-- The contract of `df.sort_values(col, ascending=False)` with the
default `kind='quicksort'`: the output is some permutation of the input
that is sorted in descending key order.  The pandas documentation
guarantees nothing further for this kind — in particular, it does not
guarantee a stable order among equal keys. -/
def SortValuesDescSpec (key : α → Nat) (input output : List α) : Prop :=
  output.Perm input ∧ output.Pairwise (fun a b => key b ≤ key a)

/-- Embedding of `calculate_churn_risk_score`: score every current-period
entity, then sort descending by score.  On an empty result the column-less
DataFrame makes `sort_values('risk_score', ...)` raise
`KeyError('risk_score')`.  The unstable `sort_values` is realised here by
a deterministic descending insertion sort, one admissible implementation
of `SortValuesDescSpec`. -/
def calculate_churn_risk_score (s : Snapshot) : Except PyErr (List RiskRow) := do
  let scores ← churn_risk_rows s
  if scores.isEmpty then .error (.keyError "risk_score")
  else .ok (isort (fun a b => decide (b.risk_score ≤ a.risk_score)) scores)

/-- One row of the segment-level risk table. -/
structure SegRiskRow where
  segment : String
  current_size : Nat
  churn_rate : Rat
  rev_change_pct : Rat
  risk_score : Nat
  risk_level : String
  deriving DecidableEq, Repr

/-- The loop body of `identify_at_risk_segments` for one current segment:
churn rate of the matching base cohort, segment revenue change, and the
three-component score (the ordinal parse happening last, as in the
source). -/
def segRiskFor (s : Snapshot) (segment : String) : Except PyErr SegRiskRow := do
  let seg_data := s.rows.filter (fun r => r.current_segment == some segment)
  let base_in_segment := s.rows.filter (fun r => r.base_segment == some segment)
  let churned := (base_in_segment.filter (fun r => r.status == "Lost (System)")).length
  let churn_rate : Rat :=
    if base_in_segment.length > 0 then (churned : Rat) / (base_in_segment.length : Rat) * 100 else 0
  let base_seg_rev := ((revCols s).map (fun c => (base_in_segment.map (fun r => r.baseVal c)).sum)).sum
  let curr_seg_rev := ((revCols s).map (fun c => (seg_data.map (fun r => r.currVal c)).sum)).sum
  let rev_change_pct : Rat :=
    if base_seg_rev > 0 then (curr_seg_rev - base_seg_rev) / base_seg_rev * 100 else 0
  let score1 : Nat := if churn_rate > 10 then 40 else if churn_rate > 5 then 20 else 0
  let score2 : Nat := if rev_change_pct < -15 then 40 else if rev_change_pct < -5 then 20 else 0
  let seg_num ← seg_ordinal segment
  let score3 : Nat := if seg_num ≥ 15 then 20 else 0
  let risk_score := score1 + score2 + score3
  .ok { segment := segment
        current_size := seg_data.length
        churn_rate := churn_rate
        rev_change_pct := rev_change_pct
        risk_score := risk_score
        risk_level := riskLevel risk_score }

/-- Embedding of `identify_at_risk_segments`: one row per sorted distinct
current segment, sorted descending by score; an empty segment list makes
`sort_values('Risk Score', ...)` raise on the column-less DataFrame. -/
def identify_at_risk_segments (s : Snapshot) : Except PyErr (List SegRiskRow) := do
  let segments := sortedDedup (s.rows.filterMap (fun r => r.current_segment))
  let segment_risks ← mapE (segRiskFor s) segments
  if segment_risks.isEmpty then .error (.keyError "Risk Score")
  else .ok (isort (fun a b => decide (b.risk_score ≤ a.risk_score)) segment_risks)

/-! ## General lemmas about the builder -/

/-- Spec-side transition table for one snapshot row (§3 of the spec):
the status a row must carry as a function of its nullable base and
current segments, with both-null rows impossible. -/
def StatusTableOk (r : BuildRow) : Prop :=
  (match r.base_segment, r.current_segment with
   | none, some _ => r.status = "New (System)"
   | some _, none => r.status = "Lost (System)"
   | some x, some y => r.status = (if x = y then "Retained" else "Moved Internal")
   | none, none => False) ∧ r.status ≠ ""

theorem outerJoin_not_both_none (base curr : List (String × String)) :
    ∀ r ∈ outerJoin base curr, r.base_segment.isSome ∨ r.current_segment.isSome := by
  intro r hr
  unfold outerJoin at hr
  rcases List.mem_append.1 hr with hl | hr2
  · rcases List.mem_flatMap.1 hl with ⟨be, _, hin⟩
    by_cases hempty : (curr.filter (fun ce => ce.1 == be.1)).isEmpty
    · rw [if_pos hempty] at hin
      rcases List.mem_singleton.1 hin with rfl
      left; rfl
    · rw [if_neg hempty] at hin
      rcases List.mem_map.1 hin with ⟨ce, _, rfl⟩
      left; rfl
  · rcases List.mem_map.1 hr2 with ⟨ce, _, rfl⟩
    right; rfl

theorem classify_status_new (y : String) :
    classify_status none (some y) = "New (System)" := by
  simp [classify_status]

theorem classify_status_lost (x : String) :
    classify_status (some x) none = "Lost (System)" := by
  simp [classify_status]

theorem classify_status_both (x y : String) :
    classify_status (some x) (some y) = if x = y then "Retained" else "Moved Internal" := by
  by_cases hxy : x = y <;> simp [classify_status, hxy]

theorem create_snapshot_ok_shape (bf cf : Frame) (snap : List BuildRow)
    (h : create_snapshot bf cf = .ok snap) :
    ∃ bl cl, snap = (outerJoin bl cl).map
      (fun r => { r with status := classify_status r.base_segment r.current_segment }) := by
  unfold create_snapshot at h
  simp only [bind, Except.bind] at h
  cases h1 : getCol bf SEGMENT_COLS_month with
  | error e => simp only [h1] at h; cases h
  | ok bmonths =>
    simp only [h1] at h
    cases h2 : iloc0 bmonths with
    | error e => simp only [h2] at h; cases h
    | ok bm =>
      simp only [h2] at h
      cases h3 : getCol cf SEGMENT_COLS_month with
      | error e => simp only [h3] at h; cases h
      | ok cmonths =>
        simp only [h3] at h
        cases h4 : iloc0 cmonths with
        | error e => simp only [h4] at h; cases h
        | ok cm =>
          simp only [h4] at h
          cases h5 : getCol bf SEGMENT_COLS_entity with
          | error e => simp only [h5] at h; cases h
          | ok bEnt =>
            simp only [h5] at h
            cases h6 : getCol bf SEGMENT_COLS_segment with
            | error e => simp only [h6] at h; cases h
            | ok bSeg =>
              simp only [h6] at h
              cases h7 : getCol cf SEGMENT_COLS_entity with
              | error e => simp only [h7] at h; cases h
              | ok cEnt =>
                simp only [h7] at h
                cases h8 : getCol cf SEGMENT_COLS_segment with
                | error e => simp only [h8] at h; cases h
                | ok cSeg =>
                  simp only [h8] at h
                  cases h
                  exact ⟨bEnt.zip bSeg, cEnt.zip cSeg, rfl⟩

/-- C1: for every row of a successfully built snapshot, `status` is the
value dictated by the transition table on `(base_segment is null,
current_segment is null, base_segment == current_segment)` — `New
(System)` when only base is null, `Lost (System)` when only current is
null, `Retained`/`Moved Internal` by equality when both are present —
rows with both segments null cannot occur, so the four categories are
exhaustive, mutually exclusive, and the status is never left unset. -/
theorem snapshot_status_total (bf cf : Frame) (snap : List BuildRow)
    (h : create_snapshot bf cf = .ok snap) :
    ∀ r ∈ snap, StatusTableOk r := by
  obtain ⟨bl, cl, rfl⟩ := create_snapshot_ok_shape bf cf snap h
  intro r hr
  rcases List.mem_map.1 hr with ⟨r0, hr0, rfl⟩
  have hns := outerJoin_not_both_none bl cl r0 hr0
  unfold StatusTableOk
  rcases hb : r0.base_segment with _ | x <;> rcases hc : r0.current_segment with _ | y <;>
    simp only [hb, hc]
  · simp [hb, hc] at hns
  · exact ⟨classify_status_new y, by rw [classify_status_new]; decide⟩
  · exact ⟨classify_status_lost x, by rw [classify_status_lost]; decide⟩
  · refine ⟨classify_status_both x y, ?_⟩
    rw [classify_status_both]
    by_cases hxy : x = y <;> simp [hxy]

/-- Base assignment table of the spec §8 example: entities E1 ↦ SEG01 and
E2 ↦ SEG02 at month 202406. -/
def wBaseFrame : Frame :=
  { cols := [SEGMENT_COLS_entity, SEGMENT_COLS_month, SEGMENT_COLS_segment],
    data := [
      fun c => if c = SEGMENT_COLS_entity then "E1" else
               if c = SEGMENT_COLS_month then "202406" else "SEG01",
      fun c => if c = SEGMENT_COLS_entity then "E2" else
               if c = SEGMENT_COLS_month then "202406" else "SEG02"] }

/-- Current assignment table of the spec §8 example: E1 ↦ SEG01 and
E3 ↦ SEG03 at month 202411. -/
def wCurrFrame : Frame :=
  { cols := [SEGMENT_COLS_entity, SEGMENT_COLS_month, SEGMENT_COLS_segment],
    data := [
      fun c => if c = SEGMENT_COLS_entity then "E1" else
               if c = SEGMENT_COLS_month then "202411" else "SEG01",
      fun c => if c = SEGMENT_COLS_entity then "E3" else
               if c = SEGMENT_COLS_month then "202411" else "SEG03"] }

/-- The snapshot the builder produces from the §8 example tables. -/
def wBuildSnap : List BuildRow :=
  [{ entity := "E1", base_segment := some "SEG01", current_segment := some "SEG01", status := "Retained" },
   { entity := "E2", base_segment := some "SEG02", current_segment := none, status := "Lost (System)" },
   { entity := "E3", base_segment := none, current_segment := some "SEG03", status := "New (System)" }]

/-- C1 witness: the builder run on the spec §8 example tables succeeds,
and the transition-table property holds at the `Lost (System)` row. -/
theorem snapshot_status_total_w :
    create_snapshot wBaseFrame wCurrFrame = .ok wBuildSnap ∧
    StatusTableOk { entity := "E2", base_segment := some "SEG02",
                    current_segment := none, status := "Lost (System)" } :=
  ⟨by decide, snapshot_status_total wBaseFrame wCurrFrame wBuildSnap (by decide)
    _ (by decide)⟩

/-- C3 counterexample: with `window_months = 3` and `target_month =
202401` the code's window is `{202311, 202312, 202401}`, so the claimed
month set `{201211, 201212, 202401}` is wrong — `201211` is not in the
window. -/
theorem ttm_window_202401_claim_false :
    get_ttm_months 202401 3 = [202311, 202312, 202401] ∧
    (201211 : Int) ∉ get_ttm_months 202401 3 := by
  constructor <;> decide

/-- C3 (amended): the trailing window walks backward month-by-month,
decrementing the year on underflow: the 3-month window ending at 202403
is `{202401, 202402, 202403}`, and the one ending at 202401 is
`{202311, 202312, 202401}`. -/
theorem ttm_window_examples :
    get_ttm_months 202403 3 = [202401, 202402, 202403] ∧
    get_ttm_months 202401 3 = [202311, 202312, 202401] := by
  constructor <;> decide

/-! ## Shared concrete snapshots for witnesses and counterexamples -/

/-- A retained entity with revenue decline (base 100, current 80). -/
def wRow1 : Row :=
  { entity := "E1", base_segment := some "SEG01", current_segment := some "SEG01",
    status := "Retained", baseVal := fun _ => 100, currVal := fun _ => 80 }

/-- An entity lost from the system. -/
def wRow2 : Row :=
  { entity := "E2", base_segment := some "SEG02", current_segment := none,
    status := "Lost (System)", baseVal := fun _ => 50, currVal := fun _ => 0 }

/-- An entity new to the system. -/
def wRow3 : Row :=
  { entity := "E3", base_segment := none, current_segment := some "SEG03",
    status := "New (System)", baseVal := fun _ => 0, currVal := fun _ => 30 }

/-- A small three-row snapshot with one revenue metric column. -/
def wSnap : Snapshot := { metricCols := ["prodA_rev_wf"], rows := [wRow1, wRow2, wRow3] }

/-- A well-formed snapshot with zero rows. -/
def emptySnapshot : Snapshot := { metricCols := ["prodA_rev_wf"], rows := [] }

/-- A snapshot whose only segment code, `SEGX`, has no numeric suffix. -/
def badSnap : Snapshot :=
  { metricCols := ["prodA_rev_wf"],
    rows := [{ entity := "E1", base_segment := some "SEGX", current_segment := some "SEGX",
               status := "Retained", baseVal := fun _ => 0, currVal := fun _ => 0 }] }

/-- C4: applied to a snapshot with zero rows, the cohort identifier and
the entity churn-risk scorer do **not** return empty results — both raise:
`identify_segment_cohorts` raises `KeyError('Retention Rate')` from its
average-retention `print` on the column-less empty DataFrame, and
`calculate_churn_risk_score` raises `KeyError('risk_score')` from
`sort_values` on the column-less empty DataFrame.  This contradicts the
spec's propagation policy (§7), which the surrounding code otherwise
implements (both loops correctly build empty lists). -/
theorem analytics_raise_on_empty :
    identify_segment_cohorts emptySnapshot = .error (.keyError "Retention Rate") ∧
    calculate_churn_risk_score emptySnapshot = .error (.keyError "risk_score") := by
  constructor <;> decide

/-- An assignment table with all required columns but zero rows. -/
def emptyAssignFrame : Frame :=
  { cols := [SEGMENT_COLS_entity, SEGMENT_COLS_month, SEGMENT_COLS_segment], data := [] }

/-- An assignment table missing the required month column. -/
def noMonthFrame : Frame :=
  { cols := [SEGMENT_COLS_entity, SEGMENT_COLS_segment], data := [] }

/-- C7 counterexample: on an empty base assignment table the builder does
not fail with a `DataError`/`ValueError` naming the offending columns —
it fails with a bare `IndexError` from `.iloc[0]` on the first-row month
read, before any validation could run (`validate_segmentation_data`, the
only function that raises a column-naming `ValueError`, is never called
by the builder). -/
theorem create_snapshot_empty_not_dataerror :
    create_snapshot emptyAssignFrame wCurrFrame = .error .indexError := by
  decide

/-- C7 (amended): the builder performs no eager validation: a missing
month column in the base table surfaces as a pandas `KeyError` naming
that column; an empty base table surfaces as an `IndexError` with no
column names; and with a well-formed base table a missing month column
in the current table surfaces as the analogous `KeyError`. -/
theorem create_snapshot_error_behavior (bf cf : Frame) :
    (SEGMENT_COLS_month ∉ bf.cols →
      create_snapshot bf cf = .error (.keyError SEGMENT_COLS_month)) ∧
    (SEGMENT_COLS_month ∈ bf.cols → bf.data = [] →
      create_snapshot bf cf = .error .indexError) ∧
    (SEGMENT_COLS_month ∈ bf.cols → bf.data ≠ [] → SEGMENT_COLS_month ∉ cf.cols →
      create_snapshot bf cf = .error (.keyError SEGMENT_COLS_month)) := by
  refine ⟨?_, ?_, ?_⟩
  · intro hnm
    unfold create_snapshot getCol
    simp [hnm, bind, Except.bind]
  · intro hm hdata
    unfold create_snapshot getCol iloc0
    simp [hm, hdata, bind, Except.bind]
  · intro hm hdata hcm
    unfold create_snapshot getCol iloc0
    rcases hd : bf.data with _ | ⟨r0, rest⟩
    · exact absurd hd hdata
    · simp [hm, hcm, bind, Except.bind]

/-- C7 witness: instantiating the amended theorem at a frame lacking the
month column yields the column-naming `KeyError`. -/
theorem create_snapshot_error_behavior_w :
    SEGMENT_COLS_month ∉ noMonthFrame.cols ∧
    create_snapshot noMonthFrame wCurrFrame = .error (.keyError SEGMENT_COLS_month) :=
  ⟨by decide, (create_snapshot_error_behavior noMonthFrame wCurrFrame).1 (by decide)⟩

/-- C10: the cohort classifier and both risk scorers parse segment
ordinals as `int(code[3:])`; on a snapshot whose segment code `SEGX`
violates the digits-from-position-3 precondition all three raise a
`ValueError` instead of returning, while on a snapshot whose codes obey
it all three return normally. -/
theorem seg_ordinal_parse_failures :
    identify_segment_cohorts badSnap = .error (.valueError "X") ∧
    calculate_churn_risk_score badSnap = .error (.valueError "X") ∧
    identify_at_risk_segments badSnap = .error (.valueError "X") ∧
    (identify_segment_cohorts wSnap).isOk = true ∧
    (calculate_churn_risk_score wSnap).isOk = true ∧
    (identify_at_risk_segments wSnap).isOk = true := by
  refine ⟨?_, ?_, ?_, ?_, ?_, ?_⟩ <;> with_unfolding_all rfl

/-! ## Summary-view lemmas -/

theorem calculate_metric_eq (s : Snapshot) (df : List Row) (p m : String) :
    calculate_metric s df p m =
      if m = "count" then (df.length : Rat)
      else if m ∈ s.metricCols then (df.map (metricVal p m)).sum
      else 0 := by
  cases df with
  | nil => simp [calculate_metric]
  | cons r t => simp [calculate_metric]

theorem filter_partition3_length (l : List Row) (seg : String) :
    (l.filter (fun r => r.current_segment == some seg)).length =
      (l.filter (fun r => r.base_segment == some seg && r.current_segment == some seg)).length +
      (l.filter (fun r => r.current_segment == some seg && r.base_segment.isNone)).length +
      (l.filter (fun r => r.current_segment == some seg && r.base_segment.isSome && r.base_segment != some seg)).length := by
  induction l with
  | nil => simp
  | cons r t ih =>
    simp only [List.filter_cons]
    rcases hb : r.base_segment with _ | b
    · by_cases hc : r.current_segment = some seg <;>
        simp [hb, hc, ih] <;> omega
    · by_cases hc : r.current_segment = some seg <;> by_cases hbs : b = seg <;>
        simp [hb, hc, hbs, ih] <;> omega

theorem filter_partition3_sum (l : List Row) (seg : String) (g : Row → Rat) :
    ((l.filter (fun r => r.current_segment == some seg)).map g).sum =
      ((l.filter (fun r => r.base_segment == some seg && r.current_segment == some seg)).map g).sum +
      ((l.filter (fun r => r.current_segment == some seg && r.base_segment.isNone)).map g).sum +
      ((l.filter (fun r => r.current_segment == some seg && r.base_segment.isSome && r.base_segment != some seg)).map g).sum := by
  induction l with
  | nil => simp
  | cons r t ih =>
    simp only [List.filter_cons]
    rcases hb : r.base_segment with _ | b
    · by_cases hc : r.current_segment = some seg <;>
        simp [hb, hc, ih] <;> ring
    · by_cases hc : r.current_segment = some seg <;> by_cases hbs : b = seg <;>
        simp [hb, hc, hbs, ih] <;> ring

theorem summaryRowFor_partition (s : Snapshot) (metric seg : String) :
    (summaryRowFor s metric seg).current =
      (summaryRowFor s metric seg).retained + (summaryRowFor s metric seg).newSystem +
      (summaryRowFor s metric seg).addedOther := by
  simp only [summaryRowFor]
  simp only [calculate_metric_eq]
  by_cases hcount : metric = "count"
  · simp only [hcount, if_true, eq_self_iff_true]
    rw [filter_partition3_length s.rows seg]
    push_cast
    ring
  · by_cases hmem : metric ∈ s.metricCols
    · rw [if_neg hcount, if_neg hcount, if_neg hcount, if_neg hcount,
         if_pos hmem, if_pos hmem, if_pos hmem, if_pos hmem]
      exact filter_partition3_sum s.rows seg (metricVal "current" metric)
    · rw [if_neg hcount, if_neg hcount, if_neg hcount, if_neg hcount,
         if_neg hmem, if_neg hmem, if_neg hmem, if_neg hmem]
      ring

/-- C2: for every snapshot and metric selector, the appended `TOTAL` row
of the summary view equals, in every numeric column, the column-wise sum
of the per-segment rows (straight summation down the table, exactly as
`df[col].sum()` computes it). -/
theorem summary_total_row_sums (s : Snapshot) (metric : String)
    (rows : List SummaryRow) (total : SummaryRow)
    (h : generate_summary_view s metric = .ok (rows, total)) :
    total.base = (rows.map (fun r => r.base)).sum ∧
    total.current = (rows.map (fun r => r.current)).sum ∧
    total.retained = (rows.map (fun r => r.retained)).sum ∧
    total.newSystem = (rows.map (fun r => r.newSystem)).sum ∧
    total.addedOther = (rows.map (fun r => r.addedOther)).sum ∧
    total.lostOther = (rows.map (fun r => r.lostOther)).sum ∧
    total.lostSystem = (rows.map (fun r => r.lostSystem)).sum ∧
    total.netChange = (rows.map (fun r => r.netChange)).sum := by
  simp only [generate_summary_view] at h
  split at h
  · simp at h
  · rw [Except.ok.injEq, Prod.mk.injEq] at h
    obtain ⟨hrows, htot⟩ := h
    subst hrows
    subst htot
    exact ⟨rfl, rfl, rfl, rfl, rfl, rfl, rfl, rfl⟩

/-- C9: in every per-segment row of the summary view, for any metric
selector, the `Current` column equals the exact sum of `Retained`,
`New (System)` and `Added (Other Seg)`: the rows with that current
segment are partitioned by their base segment being null, equal, or
different, and all four cells use current-period values. -/
theorem summary_current_partition (s : Snapshot) (metric : String)
    (rows : List SummaryRow) (total : SummaryRow)
    (h : generate_summary_view s metric = .ok (rows, total))
    (row : SummaryRow) (hrow : row ∈ rows) :
    row.current = row.retained + row.newSystem + row.addedOther := by
  simp only [generate_summary_view] at h
  split at h
  · simp at h
  · rw [Except.ok.injEq, Prod.mk.injEq] at h
    obtain ⟨hrows, htot⟩ := h
    subst hrows
    rcases List.mem_map.1 hrow with ⟨seg, hseg, rfl⟩
    exact summaryRowFor_partition s metric seg

/-- Summary row of `wSnap` for SEG01 under the `count` metric. -/
def wSummaryRow1 : SummaryRow :=
  { segment := "SEG01", base := 1, current := 1, retained := 1, newSystem := 0,
    addedOther := 0, lostOther := 0, lostSystem := 0, netChange := 0 }

/-- Summary row of `wSnap` for SEG02 under the `count` metric. -/
def wSummaryRow2 : SummaryRow :=
  { segment := "SEG02", base := 1, current := 0, retained := 0, newSystem := 0,
    addedOther := 0, lostOther := 0, lostSystem := 1, netChange := -1 }

/-- Summary row of `wSnap` for SEG03 under the `count` metric. -/
def wSummaryRow3 : SummaryRow :=
  { segment := "SEG03", base := 0, current := 1, retained := 0, newSystem := 1,
    addedOther := 0, lostOther := 0, lostSystem := 0, netChange := 1 }

/-- The per-segment summary rows of `wSnap` under the `count` metric. -/
def wSummaryRows : List SummaryRow := [wSummaryRow1, wSummaryRow2, wSummaryRow3]

/-- The `TOTAL` row of `wSnap`'s summary view under the `count` metric. -/
def wSummaryTotal : SummaryRow :=
  { segment := "TOTAL", base := 2, current := 2, retained := 1, newSystem := 1,
    addedOther := 0, lostOther := 0, lostSystem := 1, netChange := 0 }

/-- C2 witness: the summary view of the three-row snapshot under `count`
succeeds, and its `TOTAL` row equals the column-wise sums. -/
theorem summary_total_row_sums_w :
    generate_summary_view wSnap "count" = .ok (wSummaryRows, wSummaryTotal) ∧
    (wSummaryTotal.base = (wSummaryRows.map (fun r => r.base)).sum ∧
     wSummaryTotal.current = (wSummaryRows.map (fun r => r.current)).sum ∧
     wSummaryTotal.retained = (wSummaryRows.map (fun r => r.retained)).sum ∧
     wSummaryTotal.newSystem = (wSummaryRows.map (fun r => r.newSystem)).sum ∧
     wSummaryTotal.addedOther = (wSummaryRows.map (fun r => r.addedOther)).sum ∧
     wSummaryTotal.lostOther = (wSummaryRows.map (fun r => r.lostOther)).sum ∧
     wSummaryTotal.lostSystem = (wSummaryRows.map (fun r => r.lostSystem)).sum ∧
     wSummaryTotal.netChange = (wSummaryRows.map (fun r => r.netChange)).sum) :=
  ⟨by with_unfolding_all rfl,
   summary_total_row_sums wSnap "count" wSummaryRows wSummaryTotal (by with_unfolding_all rfl)⟩

/-- C9 witness: in the SEG01 row of `wSnap`'s summary view, `Current`
equals `Retained + New (System) + Added (Other Seg)`. -/
theorem summary_current_partition_w :
    generate_summary_view wSnap "count" = .ok (wSummaryRows, wSummaryTotal) ∧
    wSummaryRow1 ∈ wSummaryRows ∧
    wSummaryRow1.current = wSummaryRow1.retained + wSummaryRow1.newSystem + wSummaryRow1.addedOther :=
  ⟨by with_unfolding_all rfl, List.mem_cons_self _ _,
   summary_current_partition wSnap "count" wSummaryRows wSummaryTotal
     (by with_unfolding_all rfl) wSummaryRow1 (List.mem_cons_self _ _)⟩

/-! ## Risk-scoring lemmas -/

theorem riskFactor1_le (b c : Rat) : riskFactor1 b c ≤ 40 := by
  unfold riskFactor1
  split
  · dsimp only
    split_ifs <;> omega
  · omega

theorem riskFactor2_le (c : Rat) : riskFactor2 c ≤ 20 := by
  unfold riskFactor2; split_ifs <;> omega

theorem riskFactor3_le (n : Int) : riskFactor3 n ≤ 20 := by
  unfold riskFactor3; split_ifs <;> omega

theorem riskLevel_iff (n : Nat) :
    (60 ≤ n ↔ riskLevel n = "High") ∧
    (30 ≤ n ∧ n < 60 ↔ riskLevel n = "Medium") ∧
    (n < 30 ↔ riskLevel n = "Low") := by
  unfold riskLevel
  split_ifs with h1 h2
  · exact ⟨iff_of_true h1 rfl, iff_of_false (by omega) (by decide),
      iff_of_false (by omega) (by decide)⟩
  · exact ⟨iff_of_false (by omega) (by decide), iff_of_true ⟨h2, by omega⟩ rfl,
      iff_of_false (by omega) (by decide)⟩
  · exact ⟨iff_of_false (by omega) (by decide), iff_of_false (by omega) (by decide),
      iff_of_true (by omega) rfl⟩

theorem scoreEntity_ok (s : Snapshot) (r : Row) (rr : RiskRow)
    (h : scoreEntity s r = .ok rr) :
    (∃ f1 f2 f3 f4, rr.risk_score = f1 + f2 + f3 + f4 ∧
      f1 ≤ 40 ∧ f2 ≤ 20 ∧ f3 ≤ 20 ∧ f4 ≤ 20) ∧
    rr.risk_level = riskLevel rr.risk_score := by
  simp only [scoreEntity, bind, Except.bind] at h
  cases hc : r.current_segment with
  | none =>
    simp only [hc] at h
    cases hst : r.status == "Moved Internal" <;> simp only [hst, if_true, if_false] at h
    · cases h
      exact ⟨⟨riskFactor1 (rowBaseRev s r) (rowCurrRev s r), riskFactor2 (rowCurrRev s r), 0, 0,
        rfl, riskFactor1_le _ _, riskFactor2_le _, by omega, by omega⟩, rfl⟩
    · cases hbseg : r.base_segment <;> simp only [hbseg] at h <;> cases h <;>
        exact ⟨⟨riskFactor1 (rowBaseRev s r) (rowCurrRev s r), riskFactor2 (rowCurrRev s r), 0, 0,
          rfl, riskFactor1_le _ _, riskFactor2_le _, by omega, by omega⟩, rfl⟩
  | some cs =>
    simp only [hc] at h
    cases ho : seg_ordinal cs with
    | error e => simp only [ho] at h; cases h
    | ok n =>
      simp only [ho] at h
      cases hst : r.status == "Moved Internal" <;> simp only [hst, if_true, if_false] at h
      · cases h
        exact ⟨⟨riskFactor1 (rowBaseRev s r) (rowCurrRev s r), riskFactor2 (rowCurrRev s r),
          riskFactor3 n, 0, rfl, riskFactor1_le _ _, riskFactor2_le _,
          riskFactor3_le _, by omega⟩, rfl⟩
      · cases hbseg : r.base_segment with
        | none =>
          simp only [hbseg] at h
          cases h
          exact ⟨⟨riskFactor1 (rowBaseRev s r) (rowCurrRev s r), riskFactor2 (rowCurrRev s r),
            riskFactor3 n, 0, rfl, riskFactor1_le _ _, riskFactor2_le _,
            riskFactor3_le _, by omega⟩, rfl⟩
        | some bs =>
          simp only [hbseg] at h
          cases hob : seg_ordinal bs with
          | error e => simp only [hob] at h; cases h
          | ok bn =>
            simp only [hob, ho] at h
            cases h
            exact ⟨⟨riskFactor1 (rowBaseRev s r) (rowCurrRev s r), riskFactor2 (rowCurrRev s r),
              riskFactor3 n, if n > bn then 20 else 0, rfl, riskFactor1_le _ _,
              riskFactor2_le _, riskFactor3_le _, by split <;> omega⟩, rfl⟩

/-- C6: every scored entity's risk score is the sum of the four capped
factors (revenue decline at most 40, revenue level at most 20, segment
tier at most 20, downward move at most 20), hence lies in `[0, 100]`;
the risk-level thresholds are inclusive: a score of at least 60 is
exactly `High`, a score in `[30, 60)` exactly `Medium`, below 30 exactly
`Low`. -/
theorem churn_risk_score_bounds (s : Snapshot) (rs : List RiskRow) (rr : RiskRow)
    (h : calculate_churn_risk_score s = .ok rs) (hm : rr ∈ rs) :
    (∃ f1 f2 f3 f4, rr.risk_score = f1 + f2 + f3 + f4 ∧
      f1 ≤ 40 ∧ f2 ≤ 20 ∧ f3 ≤ 20 ∧ f4 ≤ 20) ∧
    rr.risk_score ≤ 100 ∧
    (60 ≤ rr.risk_score ↔ rr.risk_level = "High") ∧
    (30 ≤ rr.risk_score ∧ rr.risk_score < 60 ↔ rr.risk_level = "Medium") ∧
    (rr.risk_score < 30 ↔ rr.risk_level = "Low") := by
  simp only [calculate_churn_risk_score, bind, Except.bind] at h
  cases hraw : churn_risk_rows s with
  | error e => simp only [hraw] at h; cases h
  | ok raw =>
    simp only [hraw] at h
    split at h
    · cases h
    · rw [Except.ok.injEq] at h
      subst h
      have hmem : rr ∈ raw := ((isort_perm _ raw).mem_iff).1 hm
      unfold churn_risk_rows at hraw
      obtain ⟨r, hr, hok⟩ := mapE_ok_mem hraw rr hmem
      obtain ⟨⟨f1, f2, f3, f4, hsum, b1, b2, b3, b4⟩, hlevel⟩ := scoreEntity_ok s r rr hok
      obtain ⟨hH, hM, hL⟩ := riskLevel_iff rr.risk_score
      refine ⟨⟨f1, f2, f3, f4, hsum, b1, b2, b3, b4⟩, by omega, ?_, ?_, ?_⟩ <;>
        rw [hlevel] <;> assumption

/-- First scored row of the tie snapshot. -/
def tieRowA : RiskRow :=
  { entity := "E1", current_segment := "SEG01", current_revenue := 0,
    risk_score := 20, risk_level := "Low" }

/-- Second scored row of the tie snapshot, same score as the first. -/
def tieRowB : RiskRow :=
  { entity := "E2", current_segment := "SEG01", current_revenue := 0,
    risk_score := 20, risk_level := "Low" }

/-- A snapshot whose two current-period entities get equal risk scores. -/
def sTie : Snapshot :=
  { metricCols := ["prodA_rev_wf"],
    rows := [{ entity := "E1", base_segment := some "SEG01", current_segment := some "SEG01",
               status := "Retained", baseVal := fun _ => 0, currVal := fun _ => 0 },
             { entity := "E2", base_segment := some "SEG01", current_segment := some "SEG01",
               status := "Retained", baseVal := fun _ => 0, currVal := fun _ => 0 }] }

/-- C8 counterexample: the scorer's final ordering is produced by
`sort_values('risk_score', ascending=False)` with the default unstable
`kind='quicksort'`, whose documented contract is only
`SortValuesDescSpec` (a score-descending permutation).  On a snapshot
producing two equal-score rows, the swapped order also satisfies that
contract, so preservation of input order among ties is not guaranteed by
the code. -/
theorem churn_risk_sort_not_stable :
    churn_risk_rows sTie = .ok [tieRowA, tieRowB] ∧
    tieRowA.risk_score = tieRowB.risk_score ∧
    tieRowA ≠ tieRowB ∧
    SortValuesDescSpec (fun r => r.risk_score) [tieRowA, tieRowB] [tieRowB, tieRowA] ∧
    [tieRowB, tieRowA] ≠ [tieRowA, tieRowB] := by
  refine ⟨by with_unfolding_all rfl, rfl, by decide, ⟨List.Perm.swap tieRowA tieRowB [], ?_⟩, by decide⟩
  decide

/-- C8 (amended): the scorer's output is a permutation of the scored
rows that is sorted in descending order of risk score; the relative
order of equal-score rows is not specified. -/
theorem churn_risk_sorted_desc (s : Snapshot) (raw rs : List RiskRow)
    (h1 : churn_risk_rows s = .ok raw) (h2 : calculate_churn_risk_score s = .ok rs) :
    rs.Perm raw ∧ rs.Pairwise (fun a b => b.risk_score ≤ a.risk_score) := by
  simp only [calculate_churn_risk_score, bind, Except.bind, h1] at h2
  split at h2
  · cases h2
  · rw [Except.ok.injEq] at h2
    subst h2
    refine ⟨isort_perm _ raw, ?_⟩
    have hp := pairwise_isort (fun a b : RiskRow => decide (b.risk_score ≤ a.risk_score))
      (fun a b => by
        rcases Nat.le_total b.risk_score a.risk_score with hb | hb
        · exact Or.inl (decide_eq_true hb)
        · exact Or.inr (decide_eq_true hb))
      (fun a b c hab hbc =>
        decide_eq_true (le_trans (of_decide_eq_true hbc) (of_decide_eq_true hab)))
      raw
    exact hp.imp (fun hab => of_decide_eq_true hab)

/-- C8 witness: on the two-entity tie snapshot the pipeline succeeds and
its output is a sorted permutation of the scored rows. -/
theorem churn_risk_sorted_desc_w :
    churn_risk_rows sTie = .ok [tieRowA, tieRowB] ∧
    calculate_churn_risk_score sTie = .ok [tieRowA, tieRowB] ∧
    ([tieRowA, tieRowB] : List RiskRow).Perm [tieRowA, tieRowB] ∧
    ([tieRowA, tieRowB] : List RiskRow).Pairwise (fun a b => b.risk_score ≤ a.risk_score) := by
  have h := churn_risk_sorted_desc sTie [tieRowA, tieRowB] [tieRowA, tieRowB]
    (by with_unfolding_all rfl) (by with_unfolding_all rfl)
  exact ⟨by with_unfolding_all rfl, by with_unfolding_all rfl, h.1, h.2⟩

/-- The scored row of entity E1 in `wSnap` (25 + 20 risk points). -/
def wRisk1 : RiskRow :=
  { entity := "E1", current_segment := "SEG01", current_revenue := 80,
    risk_score := 45, risk_level := "Medium" }

/-- The scored row of entity E3 in `wSnap` (20 risk points). -/
def wRisk2 : RiskRow :=
  { entity := "E3", current_segment := "SEG03", current_revenue := 30,
    risk_score := 20, risk_level := "Low" }

/-- The scorer's output on `wSnap`, already score-descending. -/
def wRiskRows : List RiskRow := [wRisk1, wRisk2]

/-- C6 witness: scoring the three-row snapshot succeeds and the factor
decomposition, the 0–100 bound and the inclusive thresholds hold at the
top-scoring row. -/
theorem churn_risk_score_bounds_w :
    calculate_churn_risk_score wSnap = .ok wRiskRows ∧
    wRisk1 ∈ wRiskRows ∧
    ((∃ f1 f2 f3 f4, wRisk1.risk_score = f1 + f2 + f3 + f4 ∧
        f1 ≤ 40 ∧ f2 ≤ 20 ∧ f3 ≤ 20 ∧ f4 ≤ 20) ∧
      wRisk1.risk_score ≤ 100 ∧
      (60 ≤ wRisk1.risk_score ↔ wRisk1.risk_level = "High") ∧
      (30 ≤ wRisk1.risk_score ∧ wRisk1.risk_score < 60 ↔ wRisk1.risk_level = "Medium") ∧
      (wRisk1.risk_score < 30 ↔ wRisk1.risk_level = "Low")) :=
  ⟨by with_unfolding_all rfl, List.mem_cons_self _ _,
   churn_risk_score_bounds wSnap wRiskRows wRisk1
     (by with_unfolding_all rfl) (List.mem_cons_self _ _)⟩

/-! ## Movement-matrix counting -/

theorem sum_map_add {α : Type} (l : List α) (f g : α → Nat) :
    (l.map (fun x => f x + g x)).sum = (l.map f).sum + (l.map g).sum := by
  induction l with
  | nil => simp
  | cons x t ih => simp [ih]; omega

theorem sum_map_ite_zero (L : List String) (a : String) (k : Nat) (h : a ∉ L) :
    (L.map (fun b => if a = b then k else 0)).sum = 0 := by
  induction L with
  | nil => simp
  | cons x t ih =>
    have hax : a ≠ x := fun hax => h (hax ▸ List.mem_cons_self x t)
    have hat : a ∉ t := fun hat => h (List.mem_cons_of_mem x hat)
    simp [hax, ih hat]

theorem sum_map_ite (L : List String) (hnd : L.Nodup) (a : String) (k : Nat) (ha : a ∈ L) :
    (L.map (fun b => if a = b then k else 0)).sum = k := by
  induction L with
  | nil => cases ha
  | cons x t ih =>
    rw [List.nodup_cons] at hnd
    rcases List.mem_cons.1 ha with rfl | hat
    · simp [sum_map_ite_zero t a k hnd.1]
    · have hax : a ≠ x := fun hax => hnd.1 (hax ▸ hat)
      simp [hax, ih hnd.2 hat]

theorem sum_map_ite_and (C : List String) (P : Prop) [Decidable P] (c0 : String) (k : Nat) :
    (C.map (fun c => if P ∧ c0 = c then k else 0)).sum =
      if P then (C.map (fun c => if c0 = c then k else 0)).sum else 0 := by
  by_cases hP : P <;> simp [hP]

theorem row_bucket_one (B C : List String) (hB : B.Nodup) (hC : C.Nodup) (r : Row)
    (hmB : ∀ b, r.base_segment = some b → b ∈ B)
    (hmC : ∀ c, r.current_segment = some c → c ∈ C)
    (hns : r.base_segment.isSome ∨ r.current_segment.isSome) :
    (B.map (fun b =>
      (C.map (fun c => if (r.base_segment == some b && r.current_segment == some c) = true then 1 else 0)).sum)).sum
    + (B.map (fun b => if (r.base_segment == some b && r.current_segment.isNone) = true then 1 else 0)).sum
    + (C.map (fun c => if (r.current_segment == some c && r.base_segment.isNone) = true then 1 else 0)).sum
    = 1 := by
  rcases hb : r.base_segment with _ | b0 <;> rcases hcq : r.current_segment with _ | c0
  · rw [hb, hcq] at hns; simp at hns
  · simp
    exact sum_map_ite C hC c0 1 (hmC c0 hcq)
  · simp
    exact sum_map_ite B hB b0 1 (hmB b0 hb)
  · simp [sum_map_ite_and]
    rw [sum_map_ite B hB b0 _ (hmB b0 hb), sum_map_ite C hC c0 1 (hmC c0 hcq)]

theorem length_filter_cons {α : Type} (p : α → Bool) (r : α) (t : List α) :
    ((r :: t).filter p).length = (if p r = true then 1 else 0) + (t.filter p).length := by
  rw [List.filter_cons]
  split
  · simp; omega
  · simp

theorem flow_count_eq (B C : List String) (hB : B.Nodup) (hC : C.Nodup) :
    ∀ rows : List Row,
    (∀ r ∈ rows, ∀ b, r.base_segment = some b → b ∈ B) →
    (∀ r ∈ rows, ∀ c, r.current_segment = some c → c ∈ C) →
    (∀ r ∈ rows, r.base_segment.isSome ∨ r.current_segment.isSome) →
    (B.map (fun b =>
      (C.map (fun c =>
        (rows.filter (fun r => r.base_segment == some b && r.current_segment == some c)).length)).sum
      + (rows.filter (fun r => r.base_segment == some b && r.current_segment.isNone)).length)).sum
    + (C.map (fun c =>
        (rows.filter (fun r => r.current_segment == some c && r.base_segment.isNone)).length)).sum
    = rows.length := by
  intro rows
  induction rows with
  | nil =>
    intro _ _ _
    simp
  | cons r t ih =>
    intro hmB hmC hns
    have ihe := ih (fun r' hr' => hmB r' (List.mem_cons_of_mem r hr'))
      (fun r' hr' => hmC r' (List.mem_cons_of_mem r hr'))
      (fun r' hr' => hns r' (List.mem_cons_of_mem r hr'))
    have hbucket := row_bucket_one B C hB hC r
      (hmB r (List.mem_cons_self r t)) (hmC r (List.mem_cons_self r t))
      (hns r (List.mem_cons_self r t))
    simp only [length_filter_cons, sum_map_add] at *
    simp only [List.length_cons]
    omega

theorem calculate_metric_count (s : Snapshot) (df : List Row) (p : String) :
    calculate_metric s df p "count" = (df.length : Rat) := by
  rw [calculate_metric_eq]
  simp

theorem cast_sum_map {α : Type} (l : List α) (f : α → Nat) :
    (l.map (fun a => ((f a : Nat) : Rat))).sum = (((l.map f).sum : Nat) : Rat) := by
  induction l with
  | nil => simp
  | cons x t ih =>
    simp only [List.map_cons, List.sum_cons, ih]
    push_cast
    ring

/-- C5: for the `count` metric, the movement-matrix flow cells (base
segment × current segment, plus the `Lost` column and the `New` row,
excluding the appended totals) sum to the number of snapshot rows, since
the buckets partition the rows; moreover `Total Out` is exactly the row
sum and `Total In` exactly the column sum of the matrix, as
`matrix.sum(axis=1)` / `matrix.sum(axis=0)` compute them. -/
theorem movement_matrix_count_roundtrip (s : Snapshot) (b c : String)
    (h : ∀ r ∈ s.rows, r.base_segment.isSome ∨ r.current_segment.isSome) :
    ((mm_base_segments s).map (fun b' =>
        ((mm_curr_segments s).map (fun c' => mm_cell s "count" b' c')).sum + mm_lost s "count" b')).sum
      + ((mm_curr_segments s).map (fun c' => mm_new s "count" c')).sum = (s.rows.length : Rat)
    ∧ mm_total_out s "count" b =
        ((mm_curr_segments s).map (fun c' => mm_cell s "count" b c')).sum + mm_lost s "count" b
    ∧ mm_total_in s "count" c =
        ((mm_base_segments s).map (fun b' => mm_cell s "count" b' c)).sum + mm_new s "count" c
    ∧ mm_total_out_new s "count" = ((mm_curr_segments s).map (fun c' => mm_new s "count" c')).sum
    ∧ mm_total_in_lost s "count" = ((mm_base_segments s).map (fun b' => mm_lost s "count" b')).sum := by
  refine ⟨?_, rfl, rfl, rfl, rfl⟩
  have hmB : ∀ r ∈ s.rows, ∀ b', r.base_segment = some b' → b' ∈ mm_base_segments s := by
    intro r hr b' hb'
    unfold mm_base_segments
    rw [mem_sortedDedup]
    exact List.mem_filterMap.2 ⟨r, hr, hb'⟩
  have hmC : ∀ r ∈ s.rows, ∀ c', r.current_segment = some c' → c' ∈ mm_curr_segments s := by
    intro r hr c' hc'
    unfold mm_curr_segments
    rw [mem_sortedDedup]
    exact List.mem_filterMap.2 ⟨r, hr, hc'⟩
  have hflow := flow_count_eq (mm_base_segments s) (mm_curr_segments s)
    (sortedDedup_nodup _) (sortedDedup_nodup _) s.rows hmB hmC h
  simp only [mm_cell, mm_lost, mm_new, calculate_metric_count]
  simp only [cast_sum_map, ← Nat.cast_add, ← hflow]

/-- C5 witness: on the three-row snapshot every row has a segment on at
least one side, and the flow cells of the count matrix sum to 3, with the
totals equal to row and column sums at SEG01. -/
theorem movement_matrix_count_roundtrip_w :
    (wSnap.rows.all (fun r => r.base_segment.isSome || r.current_segment.isSome)) = true ∧
    (((mm_base_segments wSnap).map (fun b' =>
        ((mm_curr_segments wSnap).map (fun c' => mm_cell wSnap "count" b' c')).sum
          + mm_lost wSnap "count" b')).sum
      + ((mm_curr_segments wSnap).map (fun c' => mm_new wSnap "count" c')).sum
        = (wSnap.rows.length : Rat)
      ∧ mm_total_out wSnap "count" "SEG01" =
          ((mm_curr_segments wSnap).map (fun c' => mm_cell wSnap "count" "SEG01" c')).sum
            + mm_lost wSnap "count" "SEG01"
      ∧ mm_total_in wSnap "count" "SEG01" =
          ((mm_base_segments wSnap).map (fun b' => mm_cell wSnap "count" b' "SEG01")).sum
            + mm_new wSnap "count" "SEG01"
      ∧ mm_total_out_new wSnap "count" =
          ((mm_curr_segments wSnap).map (fun c' => mm_new wSnap "count" c')).sum
      ∧ mm_total_in_lost wSnap "count" =
          ((mm_base_segments wSnap).map (fun b' => mm_lost wSnap "count" b')).sum) :=
  ⟨by decide,
   movement_matrix_count_roundtrip wSnap "SEG01" "SEG01" (by decide)⟩
